import Mathlib

/-!
# Verification of the image converter/compressor core

Shallow embedding of `src/src/utils/ImageProcessor.js` (class `ImageProcessor`).
JavaScript numbers are modelled as rationals (`ℚ`); `undefined`-able numeric
fields as `Option ℚ`; JS truthiness of a possibly-absent number (`!maxWidth`)
is `truthy` below (absent, or present and equal to 0, is falsy).  The async
decode/encode collaborators (the `Image` element, `canvas.toBlob`,
`canvas.toDataURL`, `jsPDF.output`) are oracles: their outputs (decoded pixel
dimensions, produced byte lengths) enter the model as explicit parameters,
while every computation the source performs on them is embedded exactly.
A thrown `Error` and a caught-and-wrapped `success:false` result are both
modelled as the `err` variant carrying the JS error message.
-/

namespace ImageProcessor

/-- JS truthiness of an optional number: `undefined` and `0` are falsy. -/
def truthy : Option ℚ → Bool
  | none => false
  | some x => x != 0

/-- JS `a || b` for a possibly-`undefined` number `a`: `undefined` and `0`
fall through to the default. -/
def jsOr (q : Option ℚ) (d : ℚ) : ℚ :=
  match q with
  | none => d
  | some x => if x == 0 then d else x

/-- Model of JavaScript `Math.round`: round half toward `+∞`, i.e. `⌊x + 1/2⌋`,
returned as a JS number (here: a rational that is an integer). -/
def jsRound (x : ℚ) : ℚ := ((⌊x + 1/2⌋ : ℤ) : ℚ)

/-- Pairs `{width, height}` as the source passes them around (JS numbers). -/
structure Dimensions where
  width : ℚ
  height : ℚ
  deriving Repr, DecidableEq

/-- Function `calculateDimensions(originalWidth, originalHeight, maxWidth, maxHeight,
maintainAspectRatio)` from `ImageProcessor.js` lines 331–360, transcribed
clause by clause:
early return of the unrounded originals when both bounds are falsy;
aspect-locked mode does a width pass (`width = maxWidth; height = width /
aspectRatio` when `maxWidth` is truthy and exceeded) then a height pass
(`height = maxHeight; width = height * aspectRatio` when `maxHeight` is truthy
and the then-current height exceeds it); free mode clamps each coordinate by
`Math.min` independently; both bounded modes return `Math.round`ed values. -/
def calculateDimensions (originalWidth originalHeight : ℚ)
    (maxWidth maxHeight : Option ℚ) (maintainAspectRatio : Bool := true) :
    Dimensions :=
  let width := originalWidth
  let height := originalHeight
  if ¬ truthy maxWidth ∧ ¬ truthy maxHeight then
    { width := width, height := height }
  else
    let wh :=
      if maintainAspectRatio then
        let aspectRatio := originalWidth / originalHeight
        let wh1 :=
          if truthy maxWidth ∧ width > maxWidth.getD 0 then
            (maxWidth.getD 0, maxWidth.getD 0 / aspectRatio)
          else
            (width, height)
        if truthy maxHeight ∧ wh1.2 > maxHeight.getD 0 then
          (maxHeight.getD 0 * aspectRatio, maxHeight.getD 0)
        else
          wh1
      else
        let w := if truthy maxWidth then min width (maxWidth.getD 0) else width
        let h := if truthy maxHeight then min height (maxHeight.getD 0) else height
        (w, h)
    { width := jsRound wh.1, height := jsRound wh.2 }

/-- The width pass of the aspect-locked branch, as a standalone map on
`(width, height)` pairs (used to state the pass-ordering property). -/
def widthPass (aspectRatio : ℚ) (maxWidth : Option ℚ) (wh : ℚ × ℚ) : ℚ × ℚ :=
  if truthy maxWidth ∧ wh.1 > maxWidth.getD 0 then
    (maxWidth.getD 0, maxWidth.getD 0 / aspectRatio)
  else
    wh

/-- The height pass of the aspect-locked branch, as a standalone map on
`(width, height)` pairs. -/
def heightPass (aspectRatio : ℚ) (maxHeight : Option ℚ) (wh : ℚ × ℚ) : ℚ × ℚ :=
  if truthy maxHeight ∧ wh.2 > maxHeight.getD 0 then
    (maxHeight.getD 0 * aspectRatio, maxHeight.getD 0)
  else
    wh

/-- The four format strings the source works with (`'jpg'`, `'jpeg'`,
`'png'`, `'pdf'`). -/
inductive JsFormat
  | jpg
  | jpeg
  | png
  | pdf
  deriving Repr, DecidableEq, BEq

/-- The lower-case tag as the source spells it. -/
def JsFormat.str : JsFormat → String
  | .jpg => ("jpg")
  | .jpeg => ("jpeg")
  | .png => ("png")
  | .pdf => ("pdf")

/-- Upper-case tag (`format.toUpperCase()`) as used in the unsupported-pair error message. -/
def JsFormat.upper : JsFormat → String
  | .jpg => ("JPG")
  | .jpeg => ("JPEG")
  | .png => ("PNG")
  | .pdf => ("PDF")

/-- Normalization step `fromType === 'jpeg' ? 'jpg' : fromType` (lines 28–29). -/
def normalizeType (t : JsFormat) : JsFormat :=
  if t == .jpeg then .jpg else t

/-- One entry of `this.supportedConversions` (constructor, lines 8–16). -/
structure SupportedConversion where
  fromType : JsFormat
  toType : JsFormat
  clientSide : Bool
  supportsCompression : Bool
  deriving Repr, DecidableEq

/-- The fixed table from the constructor, lines 8–16. -/
def supportedConversions : List SupportedConversion :=
  [ { fromType := .jpg, toType := .png, clientSide := true, supportsCompression := true },
    { fromType := .jpeg, toType := .png, clientSide := true, supportsCompression := true },
    { fromType := .png, toType := .jpg, clientSide := true, supportsCompression := true },
    { fromType := .png, toType := .jpeg, clientSide := true, supportsCompression := true },
    { fromType := .jpg, toType := .pdf, clientSide := true, supportsCompression := true },
    { fromType := .jpeg, toType := .pdf, clientSide := true, supportsCompression := true },
    { fromType := .png, toType := .pdf, clientSide := true, supportsCompression := true } ]

/-- The `find` at lines 31–34, on the already-normalized pair. -/
def findConversion (normalizedFromType normalizedToType : JsFormat) :
    Option SupportedConversion :=
  supportedConversions.find? fun c =>
    (c.fromType == normalizedFromType ||
      (normalizedFromType == .jpg && c.fromType == .jpeg)) &&
    (c.toType == normalizedToType ||
      (normalizedToType == .jpg && c.toType == .jpeg))

/-- The settings object handed to the processor (`App.jsx` builds all five
fields; `quality` is a plain number, so a caller may pass any value). -/
structure CompressionSettings where
  quality : ℚ
  maxWidth : Option ℚ
  maxHeight : Option ℚ
  maintainAspectRatio : Bool
  enableCompression : Bool
  deriving Repr, DecidableEq

/-- The stats object literal built in `compressImage` / `convertImageFormat` /
`convertImageToPDF`.  Fields that some of those literals omit (the PDF branch
builds one without `compressionRatio` and dimensions) are `Option`s; an absent
JS field is `none`. -/
structure CompressionStats where
  originalSize : ℕ
  compressedSize : ℕ
  compressionRatio : Option ℚ
  quality : ℚ
  originalDimensions : Option Dimensions
  newDimensions : Option Dimensions
  deriving Repr, DecidableEq

/-- Result of one canvas re-encode: the produced blob size (oracle), the
format and quality argument given to the encoder (`canvas.toBlob`), and the
stats literal. -/
structure EncodeResult where
  blobSize : ℕ
  outputFormat : String
  encoderQuality : Option ℚ
  stats : CompressionStats
  deriving Repr, DecidableEq

/-- Function `compressImage(file, settings)`, lines 100–162.  Oracles: `fileSize` =
`file.size`, `filePng` = `file.type.includes('png')`, `imgW`/`imgH` = decoded
`img.width`/`img.height`, `blobSize` = byte length of the blob produced by
`canvas.toBlob`.  The quality argument passed to the encoder is
`settings.quality`, unmodified. -/
def compressImage (fileSize : ℕ) (filePng : Bool) (imgW imgH : ℚ)
    (settings : CompressionSettings) (blobSize : ℕ) : EncodeResult :=
  let d := calculateDimensions imgW imgH settings.maxWidth settings.maxHeight
    settings.maintainAspectRatio
  let outputFormat := if filePng then ("image/png") else ("image/jpeg")
  { blobSize := blobSize
    outputFormat := outputFormat
    encoderQuality := some settings.quality
    stats :=
      { originalSize := fileSize
        compressedSize := blobSize
        compressionRatio := some (((fileSize : ℚ) - blobSize) / fileSize * 100)
        quality := settings.quality
        originalDimensions := some { width := imgW, height := imgH }
        newDimensions := some { width := d.width, height := d.height } } }

/-- Function `convertImageFormat(file, fromType, toType, compressionSettings)`,
lines 254–320.  The quality argument given to `canvas.toBlob` is
`settings.quality` when compression is enabled, else `undefined` for png /
`0.95` for jpeg; the stats literal records `quality || 1.0`. -/
def convertImageFormat (fileSize : ℕ) (imgW imgH : ℚ)
    (fromType toType : JsFormat) (settings : CompressionSettings)
    (blobSize : ℕ) : EncodeResult :=
  let d := calculateDimensions imgW imgH settings.maxWidth settings.maxHeight
    settings.maintainAspectRatio
  let outputFormat := if toType == .png then ("image/png") else ("image/jpeg")
  let quality : Option ℚ :=
    if settings.enableCompression then some settings.quality
    else if toType == .png then none else some 0.95
  { blobSize := blobSize
    outputFormat := outputFormat
    encoderQuality := quality
    stats :=
      { originalSize := fileSize
        compressedSize := blobSize
        compressionRatio := some (((fileSize : ℚ) - blobSize) / fileSize * 100)
        quality := jsOr quality 1
        originalDimensions := some { width := imgW, height := imgH }
        newDimensions := some { width := d.width, height := d.height } } }

/-- jsPDF default page width: A4 portrait, unit mm.  jsPDF stores A4 as
595.28 × 841.89 points and divides by the pt-per-mm scale factor 72/25.4. -/
def pdfPageWidth : ℚ := 595.28 * 254 / 720

/-- jsPDF default page height (see `pdfPageWidth`). -/
def pdfPageHeight : ℚ := 841.89 * 254 / 720

/-- The placement computed at lines 206–222 of `convertImageToPDF`. -/
structure PdfPlacement where
  finalWidth : ℚ
  finalHeight : ℚ
  x : ℚ
  y : ℚ
  deriving Repr, DecidableEq

/-- Lines 206–222: fit the (possibly re-encoded) raster into the fixed page,
keeping aspect, with the 20-unit total margin on the driving axis, centered. -/
def pdfPlacement (imgW imgH : ℚ) : PdfPlacement :=
  let pdfWidth := pdfPageWidth
  let pdfHeight := pdfPageHeight
  let imgAspectRatio := imgW / imgH
  let pdfAspectRatio := pdfWidth / pdfHeight
  if imgAspectRatio > pdfAspectRatio then
    let finalWidth := pdfWidth - 20
    let finalHeight := finalWidth / imgAspectRatio
    { finalWidth := finalWidth, finalHeight := finalHeight,
      x := (pdfWidth - finalWidth) / 2, y := (pdfHeight - finalHeight) / 2 }
  else
    let finalHeight := pdfHeight - 20
    let finalWidth := finalHeight * imgAspectRatio
    { finalWidth := finalWidth, finalHeight := finalHeight,
      x := (pdfWidth - finalWidth) / 2, y := (pdfHeight - finalHeight) / 2 }

/-- Result of `convertImageToPDF`: the document blob size (oracle), the
computed placement, the quality given to `canvas.toDataURL` for embedding,
and the stats object it resolves with. -/
structure PdfResult where
  blobSize : ℕ
  placement : PdfPlacement
  embedQuality : ℚ
  stats : CompressionStats
  deriving Repr, DecidableEq

/-- Function `convertImageToPDF(imageFile, compressionSettings)`, lines 170–244.
Oracles: `compressBlobSize` = blob size of the internal `compressImage`
encode, `compressedImgW`/`compressedImgH` = decoded dimensions of that blob,
`pdfBlobSize` = size of `pdf.output('blob')`.  When compression is enabled the
internal re-encode's stats are kept; otherwise the resolved stats literal has
only `originalSize`, `compressedSize` and `quality` (no `compressionRatio`,
no dimension fields). -/
def convertImageToPDF (fileSize : ℕ) (filePng : Bool) (imgW imgH : ℚ)
    (settings : CompressionSettings) (compressBlobSize : ℕ)
    (compressedImgW compressedImgH : ℚ) (pdfBlobSize : ℕ) : PdfResult :=
  let processed :=
    if settings.enableCompression then
      let compressedResult := compressImage fileSize filePng imgW imgH settings
        compressBlobSize
      (compressedImgW, compressedImgH, some compressedResult.stats)
    else
      (imgW, imgH, (none : Option CompressionStats))
  let placement := pdfPlacement processed.1 processed.2.1
  let embedQuality := jsOr (some settings.quality) 0.95
  { blobSize := pdfBlobSize
    placement := placement
    embedQuality := embedQuality
    stats := processed.2.2.getD
      { originalSize := fileSize
        compressedSize := pdfBlobSize
        compressionRatio := none
        quality := embedQuality
        originalDimensions := none
        newDimensions := none } }

/-- Fields of `imageItem` as `convertImage` reads them: `id`, `name`, `file.size`. -/
structure ImageItem where
  id : ℕ
  name : String
  fileSize : ℕ
  deriving Repr, DecidableEq

/-- The `compressionStats` object literal assembled at lines 72–77 of
`convertImage` for a successful outcome. -/
structure WrapperStats where
  originalSize : ℕ
  finalSize : ℕ
  compressionRatio : ℚ
  quality : ℚ
  deriving Repr, DecidableEq

/-- The success record `convertImage` returns (lines 63–78), minus the
browser-only `blob`/`url` handles (represented by the blob's byte size). -/
structure ConvertSuccess where
  id : ℕ
  originalName : String
  convertedName : String
  blobSize : ℕ
  fromType : JsFormat
  toType : JsFormat
  compressionStats : Option WrapperStats
  deriving Repr, DecidableEq

/-- Outcome of `convertImage`: either the success record, or the error
message (from the pre-`try` throw or the `catch` wrapper — both carry the
thrown message). -/
inductive ConvertOutcome
  | ok (result : ConvertSuccess)
  | err (message : String)
  deriving Repr, DecidableEq

/-- What an awaited delegate (`convertImageToPDF` / `convertImageFormat`)
hands back to `convertImage`: the blob's byte size and the `stats` field
(`none` models a missing/undefined `result.stats`). -/
structure DelegateOutcome where
  blobSize : ℕ
  stats : Option CompressionStats
  deriving Repr, DecidableEq

/-- Model of `name.replace(/\.[^/.]+$/, newExt)` (lines 51 and 56): drop a final
dot-extension (one or more characters, none of them `.` or `/`) and append
`newExt`; leave the name unchanged when the pattern does not match. -/
def replaceExtension (name newExt : String) : String :=
  let rev := name.data.reverse
  let ext := rev.takeWhile fun c => c != '.' && c != '/'
  if ext.isEmpty then name
  else
    match rev.drop ext.length with
    | '.' :: rest => String.mk (rest.reverse ++ newExt.data)
    | _ => name

/-- Function `convertImage(imageItem, fromType, toType, compressionSettings)`,
lines 27–92.  `pdfResult` and `fmtResult` are the oracle outcomes of the two
awaited delegates (`Except.error` models a delegate rejection and its
message); all control flow, the table lookup, the error messages and the
success-record assembly are the source's. -/
def convertImage (imageItem : ImageItem) (fromType toType : JsFormat)
    (settings : CompressionSettings)
    (pdfResult fmtResult : Except String DelegateOutcome) : ConvertOutcome :=
  let normalizedFromType := normalizeType fromType
  let normalizedToType := normalizeType toType
  match findConversion normalizedFromType normalizedToType with
  | none =>
      .err ("Conversion from " ++ fromType.upper ++ " to " ++ toType.upper ++
        " is not supported")
  | some _ =>
      let attempt : Except String (ℕ × Option CompressionStats × String) :=
        if toType == .pdf then
          pdfResult.map fun r =>
            (r.blobSize, r.stats, replaceExtension imageItem.name (".pdf"))
        else if normalizedFromType != normalizedToType || settings.enableCompression then
          fmtResult.map fun r =>
            (r.blobSize, r.stats,
              replaceExtension imageItem.name ("." ++ toType.str))
        else
          .error ("No conversion or compression requested")
      match attempt with
      | .error e => .err e
      | .ok result =>
          .ok { id := imageItem.id
                originalName := imageItem.name
                convertedName := result.2.2
                blobSize := result.1
                fromType := fromType
                toType := toType
                compressionStats :=
                  if result.2.1.isSome then
                    some { originalSize := imageItem.fileSize
                           finalSize := result.1
                           compressionRatio :=
                             ((imageItem.fileSize : ℚ) - result.1) /
                               imageItem.fileSize * 100
                           quality := jsOr (some settings.quality) 1 }
                  else none }

/-- What `generateThumbnail(file, maxSize)` (lines 390–422) draws and
encodes: the canvas dimensions, and the fixed format/quality arguments given
to `canvas.toDataURL`.  It resolves with a data URL only — no stats object
exists in its result. -/
structure ThumbnailResult where
  width : ℚ
  height : ℚ
  outputFormat : String
  encoderQuality : ℚ
  deriving Repr, DecidableEq

/-- Function `generateThumbnail`, lines 390–422, with decoded size oracles. -/
def generateThumbnail (imgW imgH : ℚ) (maxSize : ℚ := 120) : ThumbnailResult :=
  let aspectRatio := imgW / imgH
  let wh :=
    if aspectRatio > 1 then (maxSize, maxSize / aspectRatio)
    else (maxSize * aspectRatio, maxSize)
  { width := wh.1
    height := wh.2
    outputFormat := ("image/jpeg")
    encoderQuality := 0.8 }

end ImageProcessor

namespace ImageProcessor

theorem jsRound_eq {x q : ℚ} (n : ℤ) (hq : (n : ℚ) = q)
    (h₁ : (n : ℚ) ≤ x + 1/2) (h₂ : x + 1/2 < (n : ℚ) + 1) : jsRound x = q := by
  unfold jsRound
  rw [Int.floor_eq_iff.mpr ⟨h₁, by exact_mod_cast h₂⟩]
  exact hq

theorem jsRound_le_intCast {x : ℚ} {n : ℤ} (h : x ≤ (n : ℚ)) :
    jsRound x ≤ (n : ℚ) := by
  unfold jsRound
  have hfl : ⌊x + 1/2⌋ ≤ ⌊(n : ℚ) + 1/2⌋ := Int.floor_le_floor (by linarith)
  have hn : ⌊(n : ℚ) + 1/2⌋ = n := by
    rw [add_comm, Int.floor_add_int]
    norm_num
  exact_mod_cast hn ▸ hfl

theorem jsRound_le_natCast {x : ℚ} {n : ℕ} (h : x ≤ (n : ℚ)) :
    jsRound x ≤ (n : ℚ) := by
  have := jsRound_le_intCast (n := (n : ℤ)) (by exact_mod_cast h)
  exact_mod_cast this

theorem jsRound_int_nonneg {x : ℚ} (hx : 0 ≤ x) :
    ∃ a : ℤ, 0 ≤ a ∧ jsRound x = (a : ℚ) :=
  ⟨⌊x + 1/2⌋, Int.floor_nonneg.mpr (by linarith), rfl⟩

/-- When at least one bound is truthy, the aspect-locked mode is exactly the
width pass followed by the height pass, then rounding (shape lemma shared by
the theorems below). -/
theorem calculateDimensions_aspect_eq (ow oh : ℚ) (maxW maxH : Option ℚ)
    (h : truthy maxW = true ∨ truthy maxH = true) :
    calculateDimensions ow oh maxW maxH true =
      { width := jsRound (heightPass (ow/oh) maxH (widthPass (ow/oh) maxW (ow, oh))).1,
        height := jsRound (heightPass (ow/oh) maxH (widthPass (ow/oh) maxW (ow, oh))).2 } := by
  unfold calculateDimensions widthPass heightPass
  rw [if_neg (fun hc => h.elim (fun ht => hc.1 ht) (fun ht => hc.2 ht))]
  simp only [if_true]

/-- When at least one bound is truthy, the free mode clamps each coordinate by
`min` independently, then rounds (shape lemma shared by the theorems below). -/
theorem calculateDimensions_free_eq (ow oh : ℚ) (maxW maxH : Option ℚ)
    (h : truthy maxW = true ∨ truthy maxH = true) :
    calculateDimensions ow oh maxW maxH false =
      { width := jsRound (if truthy maxW then min ow (maxW.getD 0) else ow),
        height := jsRound (if truthy maxH then min oh (maxH.getD 0) else oh) } := by
  unfold calculateDimensions
  rw [if_neg (fun hc => h.elim (fun ht => hc.1 ht) (fun ht => hc.2 ht))]
  simp only [Bool.false_eq_true, if_false]

theorem truthy_natCast {n : ℕ} (h : 1 ≤ n) : truthy (some (n : ℚ)) = true := by
  have hp : (0:ℚ) < n := by exact_mod_cast Nat.lt_of_lt_of_le Nat.zero_lt_one h
  simp [truthy, ne_of_gt hp]

/-- Claim C2: With `lockAspect` true, `calculateDimensions` is the width pass
followed by the height pass (each reading the then-current companion value
set by the previous pass), then rounding — the width is never re-derived
after the height pass; and at the three boundary inputs it returns
`{1000,500}`, `{500,1000}` and `{1000,1000}` (the height pass leaving the
width-pass result untouched in the third case since `1000 ≤ 1500`). -/
theorem calculateDimensions_pass_order :
    (∀ (ow oh : ℚ) (maxW maxH : Option ℚ),
      truthy maxW = true ∨ truthy maxH = true →
      calculateDimensions ow oh maxW maxH true =
        { width := jsRound (heightPass (ow/oh) maxH (widthPass (ow/oh) maxW (ow, oh))).1,
          height := jsRound (heightPass (ow/oh) maxH (widthPass (ow/oh) maxW (ow, oh))).2 }) ∧
    calculateDimensions 2000 1000 (some 1000) none true =
      { width := 1000, height := 500 } ∧
    calculateDimensions 1000 2000 none (some 1000) true =
      { width := 500, height := 1000 } ∧
    calculateDimensions 2000 2000 (some 1000) (some 1500) true =
      { width := 1000, height := 1000 } := by
  refine ⟨calculateDimensions_aspect_eq, ?_, ?_, ?_⟩
  · norm_num [calculateDimensions, truthy, Dimensions.mk.injEq]
    exact ⟨jsRound_eq 1000 (by norm_num) (by norm_num) (by norm_num),
      jsRound_eq 500 (by norm_num) (by norm_num) (by norm_num)⟩
  · norm_num [calculateDimensions, truthy, Dimensions.mk.injEq]
    exact ⟨jsRound_eq 500 (by norm_num) (by norm_num) (by norm_num),
      jsRound_eq 1000 (by norm_num) (by norm_num) (by norm_num)⟩
  · norm_num [calculateDimensions, truthy, Dimensions.mk.injEq]
    exact jsRound_eq 1000 (by norm_num) (by norm_num) (by norm_num)

/-- Witness for the quantified part of the pass-order theorem, at the first
boundary input. -/
theorem calculateDimensions_pass_order_witness :
    calculateDimensions 2000 1000 (some 1000) none true =
      { width := jsRound (heightPass (2000/1000) none
          (widthPass (2000/1000) (some 1000) (2000, 1000))).1,
        height := jsRound (heightPass (2000/1000) none
          (widthPass (2000/1000) (some 1000) (2000, 1000))).2 } :=
  calculateDimensions_pass_order.1 2000 1000 (some 1000) none
    (Or.inl (by norm_num [truthy]))

/-- Claim C4, counterexample: The claim "the returned width and height are both
`≥ 1` for all positive original dimensions and all bound values" fails:
for a 1000×1 original with `maxWidth = 1000`, the aspect-derived height is
`0.1`, which `Math.round` takes to `0` — no 1×1 minimum is enforced. -/
theorem calculateDimensions_min_one_counterexample :
    calculateDimensions 1000 1 (some 100) none true =
      { width := 100, height := 0 } ∧
    ¬ (1 ≤ (calculateDimensions 1000 1 (some 100) none true).height) := by
  have h : calculateDimensions 1000 1 (some 100) none true =
      { width := 100, height := 0 } := by
    norm_num [calculateDimensions, truthy, Dimensions.mk.injEq]
    exact ⟨jsRound_eq 100 (by norm_num) (by norm_num) (by norm_num),
      jsRound_eq 0 (by norm_num) (by norm_num) (by norm_num)⟩
  refine ⟨h, ?_⟩
  rw [h]
  norm_num

/-- Claim C4, amended: For every input with at least one truthy bound, the
returned dimensions are `Math.round`ed values — integers, and nonnegative
whenever the originals are positive and the supplied bounds nonnegative —
but a dimension may round down to `0`: no 1×1 minimum is enforced. -/
theorem calculateDimensions_rounded_nonneg (ow oh : ℚ)
    (how : 0 < ow) (hoh : 0 < oh) (maxW maxH : Option ℚ) (aspect : Bool)
    (hW : ∀ w ∈ maxW, 0 ≤ w) (hH : ∀ h ∈ maxH, 0 ≤ h)
    (hb : truthy maxW = true ∨ truthy maxH = true) :
    ∃ a b : ℤ, 0 ≤ a ∧ 0 ≤ b ∧
      calculateDimensions ow oh maxW maxH aspect =
        { width := (a : ℚ), height := (b : ℚ) } := by
  have har : 0 < ow / oh := div_pos how hoh
  have hmW0 : 0 ≤ maxW.getD 0 := by
    rcases maxW with _ | v
    · simp
    · simpa using hW v rfl
  have hmH0 : 0 ≤ maxH.getD 0 := by
    rcases maxH with _ | v
    · simp
    · simpa using hH v rfl
  cases aspect
  · rw [calculateDimensions_free_eq ow oh maxW maxH hb]
    have h1 : 0 ≤ (if truthy maxW then min ow (maxW.getD 0) else ow) := by
      split_ifs
      · exact le_min how.le hmW0
      · exact how.le
    have h2 : 0 ≤ (if truthy maxH then min oh (maxH.getD 0) else oh) := by
      split_ifs
      · exact le_min hoh.le hmH0
      · exact hoh.le
    obtain ⟨a, ha, hae⟩ := jsRound_int_nonneg h1
    obtain ⟨b, hb', hbe⟩ := jsRound_int_nonneg h2
    exact ⟨a, b, ha, hb', by rw [hae, hbe]⟩
  · rw [calculateDimensions_aspect_eq ow oh maxW maxH hb]
    have h1 : 0 ≤ (widthPass (ow/oh) maxW (ow, oh)).1 ∧
        0 ≤ (widthPass (ow/oh) maxW (ow, oh)).2 := by
      unfold widthPass
      split_ifs
      · exact ⟨hmW0, div_nonneg hmW0 har.le⟩
      · exact ⟨how.le, hoh.le⟩
    have h2 : 0 ≤ (heightPass (ow/oh) maxH (widthPass (ow/oh) maxW (ow, oh))).1 ∧
        0 ≤ (heightPass (ow/oh) maxH (widthPass (ow/oh) maxW (ow, oh))).2 := by
      unfold heightPass
      split_ifs
      · exact ⟨mul_nonneg hmH0 har.le, hmH0⟩
      · exact h1
    obtain ⟨a, ha, hae⟩ := jsRound_int_nonneg h2.1
    obtain ⟨b, hb', hbe⟩ := jsRound_int_nonneg h2.2
    exact ⟨a, b, ha, hb', by rw [hae, hbe]⟩

/-- Witness for the amended minimum-dimension theorem, at the
counterexample's own input. -/
theorem calculateDimensions_rounded_nonneg_witness :
    ∃ a b : ℤ, 0 ≤ a ∧ 0 ≤ b ∧
      calculateDimensions 1000 1 (some 100) none true =
        { width := (a : ℚ), height := (b : ℚ) } :=
  calculateDimensions_rounded_nonneg 1000 1 (by norm_num) (by norm_num)
    (some 100) none true
    (fun w hw => by rw [← Option.some_inj.mp (Option.mem_def.mp hw)]; norm_num)
    (fun h hh => by simp at hh)
    (Or.inl (by norm_num [truthy]))

/-- Claim C10: Bound-respect invariant of `calculateDimensions`: for positive
originals and positive integer bounds, in both aspect modes, a supplied
`maxWidth` is never exceeded by the returned width and a supplied `maxHeight`
is never exceeded by the returned height — including the aspect-locked case
where the height pass re-derives the width as `maxHeight * aspect` after the
width pass already clamped it. -/
theorem calculateDimensions_respects_bounds (ow oh : ℚ)
    (how : 0 < ow) (hoh : 0 < oh) (maxW maxH : Option ℚ) (aspect : Bool)
    (hW : ∀ w ∈ maxW, ∃ n : ℕ, 1 ≤ n ∧ w = (n : ℚ))
    (hH : ∀ h ∈ maxH, ∃ n : ℕ, 1 ≤ n ∧ h = (n : ℚ)) :
    (∀ w ∈ maxW, (calculateDimensions ow oh maxW maxH aspect).width ≤ w) ∧
    (∀ h ∈ maxH, (calculateDimensions ow oh maxW maxH aspect).height ≤ h) := by
  have har : 0 < ow / oh := div_pos how hoh
  have hor : oh * (ow / oh) = ow := by field_simp
  rcases maxW with _ | w
  · refine ⟨by simp, ?_⟩
    rcases maxH with _ | h
    · simp
    · intro h' hh'
      obtain rfl : h = h' := by simpa using hh'
      obtain ⟨nh, hnh, rfl⟩ := hH _ hh'
      have hth := truthy_natCast hnh
      cases aspect
      · rw [calculateDimensions_free_eq _ _ _ _ (Or.inr hth)]
        dsimp only
        simp only [hth, if_true, Option.getD_some]
        exact jsRound_le_natCast (min_le_right _ _)
      · rw [calculateDimensions_aspect_eq _ _ _ _ (Or.inr hth)]
        dsimp only
        have hwp : widthPass (ow/oh) none (ow, oh) = (ow, oh) := by
          simp [widthPass, truthy]
        rw [hwp]
        unfold heightPass
        simp only [Option.getD_some]
        split_ifs with hc
        · exact jsRound_le_natCast le_rfl
        · rcases not_and_or.mp hc with hc1 | hc2
          · exact absurd hth hc1
          · exact jsRound_le_natCast (not_lt.mp hc2)
  · obtain ⟨nw, hnw, rfl⟩ := hW _ rfl
    have htw := truthy_natCast hnw
    rcases maxH with _ | h
    · refine ⟨?_, by simp⟩
      intro w' hw'
      obtain rfl : ((nw : ℚ)) = w' := by simpa using hw'
      cases aspect
      · rw [calculateDimensions_free_eq _ _ _ _ (Or.inl htw)]
        dsimp only
        simp only [htw, if_true, Option.getD_some]
        exact jsRound_le_natCast (min_le_right _ _)
      · rw [calculateDimensions_aspect_eq _ _ _ _ (Or.inl htw)]
        dsimp only
        have hhp : heightPass (ow/oh) none (widthPass (ow/oh) (some (nw:ℚ)) (ow, oh)) =
            widthPass (ow/oh) (some (nw:ℚ)) (ow, oh) := by
          simp [heightPass, truthy]
        rw [hhp]
        unfold widthPass
        simp only [Option.getD_some]
        split_ifs with hc
        · exact jsRound_le_natCast le_rfl
        · rcases not_and_or.mp hc with hc1 | hc2
          · exact absurd htw hc1
          · exact jsRound_le_natCast (not_lt.mp hc2)
    · obtain ⟨nh, hnh, rfl⟩ := hH _ rfl
      have hth := truthy_natCast hnh
      constructor
      · intro w' hw'
        obtain rfl : ((nw : ℚ)) = w' := by simpa using hw'
        cases aspect
        · rw [calculateDimensions_free_eq _ _ _ _ (Or.inl htw)]
          dsimp only
          simp only [htw, if_true, Option.getD_some]
          exact jsRound_le_natCast (min_le_right _ _)
        · rw [calculateDimensions_aspect_eq _ _ _ _ (Or.inl htw)]
          dsimp only
          unfold widthPass heightPass
          simp only [Option.getD_some]
          split_ifs with h1 h2 h3
          · dsimp only at h2 ⊢
            have : (nh : ℚ) * (ow/oh) < nw := (lt_div_iff₀ har).mp h2.2
            exact jsRound_le_natCast this.le
          · exact jsRound_le_natCast le_rfl
          · dsimp only at h3 ⊢
            have h4 : (nh : ℚ) * (ow/oh) < oh * (ow/oh) :=
              mul_lt_mul_of_pos_right h3.2 har
            rw [hor] at h4
            have h5 : ow ≤ (nw : ℚ) := by
              rcases not_and_or.mp h1 with hc1 | hc2
              · exact absurd htw hc1
              · exact not_lt.mp hc2
            exact jsRound_le_natCast (h4.le.trans h5)
          · have h5 : ow ≤ (nw : ℚ) := by
              rcases not_and_or.mp h1 with hc1 | hc2
              · exact absurd htw hc1
              · exact not_lt.mp hc2
            exact jsRound_le_natCast h5
      · intro h' hh'
        obtain rfl : ((nh : ℚ)) = h' := by simpa using hh'
        cases aspect
        · rw [calculateDimensions_free_eq _ _ _ _ (Or.inl htw)]
          dsimp only
          simp only [hth, if_true, Option.getD_some]
          exact jsRound_le_natCast (min_le_right _ _)
        · rw [calculateDimensions_aspect_eq _ _ _ _ (Or.inl htw)]
          dsimp only
          unfold widthPass heightPass
          simp only [Option.getD_some]
          split_ifs with h1 h2 h3
          · exact jsRound_le_natCast le_rfl
          · dsimp only at h2 ⊢
            rcases not_and_or.mp h2 with hc1 | hc2
            · exact absurd hth hc1
            · exact jsRound_le_natCast (not_lt.mp hc2)
          · exact jsRound_le_natCast le_rfl
          · dsimp only at h3 ⊢
            rcases not_and_or.mp h3 with hc1 | hc2
            · exact absurd hth hc1
            · exact jsRound_le_natCast (not_lt.mp hc2)

/-- Witness for the bound-respect invariant at a concrete input exercising
both bounds in aspect-locked mode. -/
theorem calculateDimensions_respects_bounds_witness :
    (calculateDimensions 2000 1000 (some 1500) (some 500) true).width ≤ 1500 ∧
    (calculateDimensions 2000 1000 (some 1500) (some 500) true).height ≤ 500 := by
  have h := calculateDimensions_respects_bounds 2000 1000 (by norm_num)
    (by norm_num) (some 1500) (some 500) true
    (fun w hw => ⟨1500, by norm_num,
      by rw [← Option.some_inj.mp (Option.mem_def.mp hw)]; norm_num⟩)
    (fun h hh => ⟨500, by norm_num,
      by rw [← Option.some_inj.mp (Option.mem_def.mp hh)]; norm_num⟩)
  exact ⟨h.1 1500 rfl, h.2 500 rfl⟩

/-- The supported-pair lookup finds nothing when both normalized formats are
equal: the table contains no same-format entry. -/
theorem findConversion_self (x : JsFormat) : findConversion x x = none := by
  cases x <;> rfl

/-- Claim C1, counterexample: A png→png request with compression disabled is
rejected, but with the unsupported-pair message — the table has no png→png
entry, so the lookup fails before the `No conversion or compression
requested` branch can run. -/
theorem convertImage_same_format_counterexample :
    convertImage ⟨0, ("photo.png"), 100⟩ .png .png ⟨1, none, none, true, false⟩
        (.ok ⟨1, none⟩) (.ok ⟨1, none⟩) =
      .err ("Conversion from PNG to PNG is not supported") ∧
    convertImage ⟨0, ("photo.png"), 100⟩ .png .png ⟨1, none, none, true, false⟩
        (.ok ⟨1, none⟩) (.ok ⟨1, none⟩) ≠
      .err ("No conversion or compression requested") := by
  refine ⟨rfl, ?_⟩
  intro h
  rw [show convertImage ⟨0, ("photo.png"), 100⟩ .png .png ⟨1, none, none, true, false⟩
      (.ok ⟨1, none⟩) (.ok ⟨1, none⟩) =
      .err ("Conversion from PNG to PNG is not supported") from rfl] at h
  simp only [ConvertOutcome.err.injEq] at h
  exact absurd h (by decide)

/-- Claim C1, amended: Every request whose normalized source format equals its
normalized target format (regardless of the compression flag) is rejected by
`convertImage` with the unsupported-pair error — never silently passed
through, but also never with `No conversion or compression requested`, whose
branch is unreachable because the table lists no same-format pair. -/
theorem convertImage_same_format_unsupported (imageItem : ImageItem)
    (fromType toType : JsFormat) (settings : CompressionSettings)
    (pdfResult fmtResult : Except String DelegateOutcome)
    (h : normalizeType fromType = normalizeType toType) :
    convertImage imageItem fromType toType settings pdfResult fmtResult =
      .err ("Conversion from " ++ fromType.upper ++ " to " ++ toType.upper ++
        " is not supported") := by
  have key : findConversion (normalizeType fromType) (normalizeType toType) = none := by
    rw [← h]
    exact findConversion_self _
  simp only [convertImage, key]

/-- Witness for the same-format rejection, at the claim's own example
(png→png, compression off). -/
theorem convertImage_same_format_unsupported_witness :
    convertImage ⟨7, ("img.png"), 42⟩ .png .png ⟨1, none, none, true, false⟩
        (.ok ⟨3, none⟩) (.ok ⟨3, none⟩) =
      .err ("Conversion from PNG to PNG is not supported") :=
  convertImage_same_format_unsupported ⟨7, ("img.png"), 42⟩ .png .png
    ⟨1, none, none, true, false⟩ (.ok ⟨3, none⟩) (.ok ⟨3, none⟩) rfl

/-- Claim C5: When the supported-pair lookup fails, `convertImage` returns the
unsupported-pair failure (and nothing else — no fallback conversion is
attempted); in particular every request with the document format as source
fails this way, for every target. -/
theorem convertImage_unsupported_pair :
    (∀ (imageItem : ImageItem) (fromType toType : JsFormat)
        (settings : CompressionSettings)
        (pdfResult fmtResult : Except String DelegateOutcome),
      findConversion (normalizeType fromType) (normalizeType toType) = none →
      convertImage imageItem fromType toType settings pdfResult fmtResult =
        .err ("Conversion from " ++ fromType.upper ++ " to " ++ toType.upper ++
          " is not supported")) ∧
    (∀ (imageItem : ImageItem) (toType : JsFormat)
        (settings : CompressionSettings)
        (pdfResult fmtResult : Except String DelegateOutcome),
      convertImage imageItem .pdf toType settings pdfResult fmtResult =
        .err ("Conversion from PDF to " ++ toType.upper ++ " is not supported")) := by
  constructor
  · intro imageItem fromType toType settings pdfResult fmtResult h
    simp only [convertImage, h]
  · intro imageItem toType settings pdfResult fmtResult
    cases toType <;> rfl

/-- Witness for the unsupported-pair failure: document source, bitmap
target. -/
theorem convertImage_unsupported_pair_witness :
    convertImage ⟨1, ("scan.pdf"), 100⟩ .pdf .png ⟨1, none, none, true, false⟩
        (.ok ⟨1, none⟩) (.ok ⟨1, none⟩) =
      .err ("Conversion from PDF to PNG is not supported") :=
  convertImage_unsupported_pair.1 ⟨1, ("scan.pdf"), 100⟩ .pdf .png
    ⟨1, none, none, true, false⟩ (.ok ⟨1, none⟩) (.ok ⟨1, none⟩) rfl

/-- Claim C6: On every successful conversion with positive original byte size,
the reported wrapper stats carry exactly
`(originalSize - finalSize) / originalSize * 100` as the compression ratio,
and when the output is larger than the input this value is negative (it is
the raw formula — nothing clamps it to zero). -/
theorem convertImage_ratio_exact (imageItem : ImageItem)
    (fromType toType : JsFormat) (settings : CompressionSettings)
    (pdfResult fmtResult : Except String DelegateOutcome)
    (r : ConvertSuccess) (st : WrapperStats)
    (hok : convertImage imageItem fromType toType settings pdfResult fmtResult = .ok r)
    (hst : r.compressionStats = some st) (hpos : 0 < imageItem.fileSize) :
    st.compressionRatio =
      ((imageItem.fileSize : ℚ) - (st.finalSize : ℚ)) /
        (imageItem.fileSize : ℚ) * 100 ∧
    (imageItem.fileSize < st.finalSize → st.compressionRatio < 0) := by
  rcases hfc : findConversion (normalizeType fromType) (normalizeType toType) with _ | c
  · simp only [convertImage, hfc] at hok
    exact absurd hok (by simp)
  · simp only [convertImage, hfc] at hok
    split at hok
    · exact absurd hok (by simp)
    · rename_i res heq
      injection hok with hr
      subst hr
      simp only at hst
      split at hst
      · injection hst with hst'
        subst hst'
        refine ⟨rfl, ?_⟩
        intro hlt
        dsimp only at hlt ⊢
        have h2 : (0:ℚ) < imageItem.fileSize := by exact_mod_cast hpos
        have h1 : ((imageItem.fileSize : ℚ) - (res.1 : ℚ)) < 0 := by
          have hq : (imageItem.fileSize : ℚ) < (res.1 : ℚ) := by exact_mod_cast hlt
          linarith
        exact mul_neg_of_neg_of_pos (div_neg_of_neg_of_pos h1 h2)
          (by norm_num : (0:ℚ) < 100)
      · exact absurd hst (by simp)

/-- Witness for the exact-ratio theorem: a 10-byte source whose converted
blob is 25 bytes reports ratio `(10 - 25)/10·100 = -150`, negative. -/
theorem convertImage_ratio_exact_witness :
    WrapperStats.compressionRatio
        ⟨10, 25, ((10:ℚ) - 25) / 10 * 100, jsOr (some 1) 1⟩ =
      (((10:ℕ) : ℚ) - ((25:ℕ) : ℚ)) / ((10:ℕ) : ℚ) * 100 ∧
    ((10:ℕ) < (25:ℕ) →
      WrapperStats.compressionRatio
        ⟨10, 25, ((10:ℚ) - 25) / 10 * 100, jsOr (some 1) 1⟩ < 0) :=
  convertImage_ratio_exact ⟨0, ("a.png"), 10⟩ .png .jpg ⟨1, none, none, true, true⟩
    (.ok ⟨25, none⟩) (.ok ⟨25, some ⟨10, 25, none, 1, none, none⟩⟩)
    ⟨0, ("a.png"), replaceExtension ("a.png") ("." ++ JsFormat.str .jpg), 25,
      .png, .jpg, some ⟨10, 25, ((10:ℚ) - 25) / 10 * 100, jsOr (some 1) 1⟩⟩
    ⟨10, 25, ((10:ℚ) - 25) / 10 * 100, jsOr (some 1) 1⟩
    rfl rfl (by norm_num)

/-- Claim C3, counterexample: No clamping of `quality` into `[0.1, 1.0]`
happens anywhere in the core: `quality = 1.5` reaches the encoder as `1.5`
(not `1.0`), and `quality = 0` reaches it as `0` (not `0.1`). -/
theorem quality_clamping_counterexample :
    (compressImage 100 false 200 100 ⟨3/2, none, none, true, true⟩ 50).encoderQuality =
      some (3/2) ∧
    ((3/2 : ℚ) ≠ 1) ∧
    (compressImage 100 false 200 100 ⟨0, none, none, true, true⟩ 50).encoderQuality =
      some 0 ∧
    ((0 : ℚ) ≠ 1/10) :=
  ⟨rfl, by norm_num, rfl, by norm_num⟩

/-- Claim C3, amended: The core never clamps `quality`: `compressImage` always
hands `settings.quality` to the encoder unchanged, and so does
`convertImageFormat` whenever compression is enabled — out-of-range values
included. -/
theorem quality_passed_unclamped (fileSize : ℕ) (filePng : Bool)
    (imgW imgH : ℚ) (settings : CompressionSettings) (blobSize : ℕ)
    (fromType toType : JsFormat)
    (henc : settings.enableCompression = true) :
    (compressImage fileSize filePng imgW imgH settings blobSize).encoderQuality =
      some settings.quality ∧
    (convertImageFormat fileSize imgW imgH fromType toType settings
      blobSize).encoderQuality = some settings.quality :=
  ⟨rfl, by simp [convertImageFormat, henc]⟩

/-- Witness for the unclamped-quality theorem at the out-of-range value
`1.5`. -/
theorem quality_passed_unclamped_witness :
    (compressImage 100 false 200 100 ⟨3/2, none, none, true, true⟩ 50).encoderQuality =
      some (3/2) ∧
    (convertImageFormat 100 200 100 .png .jpg ⟨3/2, none, none, true, true⟩
      50).encoderQuality = some (3/2) :=
  quality_passed_unclamped 100 false 200 100 ⟨3/2, none, none, true, true⟩ 50
    .png .jpg rfl

/-- Claim C7: Page-fit placement for the document assembler: when the raster's
aspect ratio exceeds the page's, `finalWidth = pageWidth - 20` and
`finalHeight = finalWidth / aspect`, otherwise `finalHeight = pageHeight - 20`
and `finalWidth = finalHeight * aspect`; the raster is centered both ways,
and a wider-than-tall raster gets left and right margins of exactly 10
page-units each. -/
theorem pdfPlacement_spec (imgW imgH : ℚ) (hw : 0 < imgW) (hh : 0 < imgH) :
    (imgW / imgH > pdfPageWidth / pdfPageHeight →
      (pdfPlacement imgW imgH).finalWidth = pdfPageWidth - 20 ∧
      (pdfPlacement imgW imgH).finalHeight =
        (pdfPageWidth - 20) / (imgW / imgH)) ∧
    (¬ (imgW / imgH > pdfPageWidth / pdfPageHeight) →
      (pdfPlacement imgW imgH).finalHeight = pdfPageHeight - 20 ∧
      (pdfPlacement imgW imgH).finalWidth =
        (pdfPageHeight - 20) * (imgW / imgH)) ∧
    (pdfPlacement imgW imgH).x =
      (pdfPageWidth - (pdfPlacement imgW imgH).finalWidth) / 2 ∧
    (pdfPlacement imgW imgH).y =
      (pdfPageHeight - (pdfPlacement imgW imgH).finalHeight) / 2 ∧
    (imgH < imgW →
      (pdfPlacement imgW imgH).x = 10 ∧
      pdfPageWidth - ((pdfPlacement imgW imgH).x +
        (pdfPlacement imgW imgH).finalWidth) = 10) := by
  have hpage : pdfPageWidth / pdfPageHeight < 1 := by
    norm_num [pdfPageWidth, pdfPageHeight]
  refine ⟨?_, ?_, ?_, ?_, ?_⟩
  · intro hc
    simp [pdfPlacement, if_pos hc]
  · intro hc
    simp [pdfPlacement, if_neg hc]
  · simp only [pdfPlacement]
    split_ifs <;> rfl
  · simp only [pdfPlacement]
    split_ifs <;> rfl
  · intro hlt
    have hc : imgW / imgH > pdfPageWidth / pdfPageHeight :=
      lt_trans hpage ((one_lt_div hh).mpr hlt)
    simp only [pdfPlacement, if_pos hc]
    constructor
    · ring
    · ring

/-- Witness for the placement theorem: the claim's own 2000×1000
wider-than-tall raster is horizontally centered with 10-unit margins. -/
theorem pdfPlacement_spec_witness :
    (pdfPlacement 2000 1000).x = 10 ∧
    pdfPageWidth - ((pdfPlacement 2000 1000).x +
      (pdfPlacement 2000 1000).finalWidth) = 10 :=
  (pdfPlacement_spec 2000 1000 (by norm_num) (by norm_num)).2.2.2.2
    (by norm_num)

/-- Claim C8, counterexample: With compression disabled, the stats record
`convertImageToPDF` resolves with has *no* `compressionRatio` field at all —
it is not computed by the `(original - final)/original · 100` formula (here
that formula would give `50`). -/
theorem convertImageToPDF_ratio_counterexample :
    (convertImageToPDF 100 false 200 100 ⟨4/5, none, none, true, false⟩
        0 0 0 50).stats.compressionRatio = none ∧
    ¬ ((convertImageToPDF 100 false 200 100 ⟨4/5, none, none, true, false⟩
        0 0 0 50).stats.compressionRatio =
      some (((100:ℚ) - 50) / 100 * 100)) := by
  have h : (convertImageToPDF 100 false 200 100 ⟨4/5, none, none, true, false⟩
      0 0 0 50).stats.compressionRatio = none := rfl
  exact ⟨h, by rw [h]; simp⟩

/-- Claim C8, amended: When compression is enabled, `convertImageToPDF`
propagates the internal re-encode's stats verbatim; when it is disabled, the
synthesized record carries only the original byte size, the final document
byte size and the quality used — no `compressionRatio` (and no dimension
fields) is computed for it. -/
theorem convertImageToPDF_stats_propagation (fileSize : ℕ) (filePng : Bool)
    (imgW imgH : ℚ) (settings : CompressionSettings) (compressBlobSize : ℕ)
    (compressedImgW compressedImgH : ℚ) (pdfBlobSize : ℕ) :
    (settings.enableCompression = true →
      (convertImageToPDF fileSize filePng imgW imgH settings compressBlobSize
        compressedImgW compressedImgH pdfBlobSize).stats =
      (compressImage fileSize filePng imgW imgH settings compressBlobSize).stats) ∧
    (settings.enableCompression = false →
      (convertImageToPDF fileSize filePng imgW imgH settings compressBlobSize
        compressedImgW compressedImgH pdfBlobSize).stats =
      { originalSize := fileSize
        compressedSize := pdfBlobSize
        compressionRatio := none
        quality := jsOr (some settings.quality) 0.95
        originalDimensions := none
        newDimensions := none }) := by
  constructor <;> intro h <;> simp [convertImageToPDF, h]

/-- Witness for the stats-propagation theorem, in the compression-disabled
branch. -/
theorem convertImageToPDF_stats_propagation_witness :
    (convertImageToPDF 100 false 200 100 ⟨4/5, none, none, true, false⟩
        0 0 0 50).stats =
      { originalSize := 100
        compressedSize := 50
        compressionRatio := none
        quality := jsOr (some (4/5)) 0.95
        originalDimensions := none
        newDimensions := none } :=
  (convertImageToPDF_stats_propagation 100 false 200 100
    ⟨4/5, none, none, true, false⟩ 0 0 0 50).2 rfl

/-- Claim C9: `generateThumbnail` always encodes as the lossy bitmap format
(`image/jpeg`) at fixed quality `0.8` (its result carries no stats), with the
single-box dimension rule: aspect over 1 pins the width to `maxSize` and
derives the height, otherwise the height is pinned and the width derived. -/
theorem generateThumbnail_spec (imgW imgH maxSize : ℚ) :
    (generateThumbnail imgW imgH maxSize).outputFormat = ("image/jpeg") ∧
    (generateThumbnail imgW imgH maxSize).encoderQuality = 0.8 ∧
    (imgW / imgH > 1 →
      (generateThumbnail imgW imgH maxSize).width = maxSize ∧
      (generateThumbnail imgW imgH maxSize).height = maxSize / (imgW / imgH)) ∧
    (¬ (imgW / imgH > 1) →
      (generateThumbnail imgW imgH maxSize).height = maxSize ∧
      (generateThumbnail imgW imgH maxSize).width = maxSize * (imgW / imgH)) := by
  refine ⟨rfl, rfl, fun h => ?_, fun h => ?_⟩ <;>
    simp [generateThumbnail, h]

/-- Witness for the thumbnail theorem at a 200×100 (wider-than-tall)
image. -/
theorem generateThumbnail_spec_witness :
    (generateThumbnail 200 100 120).width = 120 ∧
    (generateThumbnail 200 100 120).height = 120 / ((200:ℚ) / 100) :=
  (generateThumbnail_spec 200 100 120).2.2.1 (by norm_num)

end ImageProcessor
